import Mathlib

/-!
Verification of the invoice-app core services against their natural-language
specification.  The definitions below are a shallow embedding of the Python
source under `app/`: Decimal values are modelled as rationals (`ℚ`), Decimal
quantization as explicit rounding functions, enum columns as inductive types,
fallible code as `Except`, and the relational store as explicit record states.
-/

namespace InvoiceApp

/-- Decidable equality for Except, so that success and failure of the
embedded fallible operations is decidable. -/
instance {ε α : Type} [DecidableEq ε] [DecidableEq α] :
    DecidableEq (Except ε α) := fun
  | .ok a, .ok b =>
    if h : a = b then .isTrue (by rw [h]) else .isFalse (by simp [h])
  | .error a, .error b =>
    if h : a = b then .isTrue (by rw [h]) else .isFalse (by simp [h])
  | .ok _, .error _ => .isFalse (by simp)
  | .error _, .ok _ => .isFalse (by simp)

/-- Invoice status enum from app/models/invoice.py (InvoiceStatus). -/
inductive InvoiceStatus where
  | draft
  | sent
  | viewed
  | paid
  | partiallyPaid
  | overdue
  | cancelled
deriving DecidableEq, Repr, Fintype

/-- Payment status enum from app/models/payment.py (PaymentStatus). -/
inductive PaymentStatus where
  | pending
  | partialPay
  | completed
  | cancelled
deriving DecidableEq, Repr

/-- Aggregate payment state from app/models/payment.py (InvoicePaymentState). -/
inductive InvoicePaymentState where
  | fullyPaid
  | overpaid
  | partiallyPaid
  | unpaid
deriving DecidableEq, Repr

/-- ALLOWED_STATUS_TRANSITIONS from app/services/invoice_service.py
(lines 58-88): the per-status set of allowed target statuses, kept in the
source order of the dict literal. -/
def ALLOWED_STATUS_TRANSITIONS : InvoiceStatus → List InvoiceStatus
  | .draft => [.sent, .cancelled]
  | .sent => [.viewed, .paid, .partiallyPaid, .overdue, .cancelled]
  | .viewed => [.paid, .partiallyPaid, .overdue, .cancelled]
  | .paid => []
  | .partiallyPaid => [.paid, .overdue, .cancelled]
  | .overdue => [.paid, .partiallyPaid, .cancelled]
  | .cancelled => []

/-- The data carried by the ValidationException raised by
validate_status_transition: the details dict records the current status, the
requested status, and the allowed transition set. -/
structure TransitionError where
  current : InvoiceStatus
  requested : InvoiceStatus
  allowed : List InvoiceStatus
deriving DecidableEq, Repr

/-- validate_status_transition from app/services/invoice_service.py
(lines 91-115): no-op success when the statuses are equal, success when the
requested status is in the allowed set, otherwise a ValidationException
carrying current, requested, and the allowed set. -/
def validate_status_transition (current_status new_status : InvoiceStatus) :
    Except TransitionError Unit :=
  if current_status = new_status then
    .ok ()
  else if new_status ∈ ALLOWED_STATUS_TRANSITIONS current_status then
    .ok ()
  else
    .error ⟨current_status, new_status, ALLOWED_STATUS_TRANSITIONS current_status⟩

/-- The transition table exactly as the spec sentence spells it out,
for comparison with the table defined in the source. -/
def specAllowedTransition : InvoiceStatus → InvoiceStatus → Prop
  | .draft, t => t = .sent ∨ t = .cancelled
  | .sent, t => t = .viewed ∨ t = .paid ∨ t = .partiallyPaid ∨ t = .overdue ∨ t = .cancelled
  | .viewed, t => t = .paid ∨ t = .partiallyPaid ∨ t = .overdue ∨ t = .cancelled
  | .partiallyPaid, t => t = .paid ∨ t = .overdue ∨ t = .cancelled
  | .overdue, t => t = .paid ∨ t = .partiallyPaid ∨ t = .cancelled
  | .paid, _ => False
  | .cancelled, _ => False

instance (s t : InvoiceStatus) : Decidable (specAllowedTransition s t) := by
  cases s <;> simp only [specAllowedTransition] <;> infer_instance

/-- Python ROUND_HALF_UP on a rational: round to the nearest integer, ties
going away from zero. -/
def roundHalfUp (x : ℚ) : ℤ :=
  if 0 ≤ x then ⌊x + 1 / 2⌋ else -⌊-x + 1 / 2⌋

/-- Python ROUND_HALF_EVEN (the decimal module's default context rounding) on
a rational: round to the nearest integer, ties to the even neighbour. -/
def roundHalfEven (x : ℚ) : ℤ :=
  let n : ℤ := ⌊x⌋
  if x - n < 1 / 2 then n
  else if 1 / 2 < x - n then n + 1
  else if n % 2 = 0 then n else n + 1

/-- Decimal.quantize(Decimal(0.01), rounding=ROUND_HALF_UP). -/
def quantize2HalfUp (x : ℚ) : ℚ := (roundHalfUp (100 * x) : ℚ) / 100

/-- Decimal.quantize(Decimal(0.01)) with the default context rounding
(ROUND_HALF_EVEN). -/
def quantize2HalfEven (x : ℚ) : ℚ := (roundHalfEven (100 * x) : ℚ) / 100

/-- Python exception classes that the code under app/utils/invoice_utils.py
can meet around Decimal parsing: decimal.InvalidOperation (a subclass of
ArithmeticError, raised by Decimal on a malformed numeric string), ValueError
and TypeError (the two classes calculate_discount catches). -/
inductive ExcKind where
  | invalidOperation
  | valueError
  | typeError
deriving DecidableEq, Repr

/-- The runtime value passed as discount_value: the Python signature is
Decimal | float | str | None.  Decimal and float values are carried as exact
rationals, strings verbatim. -/
inductive DiscVal where
  | none
  | num (v : ℚ)
  | str (s : String)
deriving DecidableEq, Repr

/-- Python truthiness of a discount_value: None, numeric zero and the empty
string are falsy. -/
def discValFalsy : DiscVal → Prop
  | .none => True
  | .num v => v = 0
  | .str s => s = ""

instance (v : DiscVal) : Decidable (discValFalsy v) := by
  cases v <;> simp only [discValFalsy] <;> infer_instance

/-- is_discount_type from app/utils/invoice_utils.py: the value is one of
"fixed", "percent", "percentage". -/
def is_discount_type (value : Option String) : Prop :=
  value = some "fixed" ∨ value = some "percent" ∨ value = some "percentage"

instance (value : Option String) : Decidable (is_discount_type value) := by
  unfold is_discount_type; infer_instance

/-- Digit run to a natural number (helper of the Decimal string parser). -/
def digitsToNat (cs : List Char) : ℕ :=
  cs.foldl (fun n c => 10 * n + (c.toNat - 48)) 0

/-- The rational a parsed decimal string denotes: whole part, fractional
digits value, and the number of fractional digits. -/
def ratOfParts (neg : Bool) (whole frac fracDigits : ℕ) : ℚ :=
  let mag : ℚ := (whole : ℚ) + (frac : ℚ) / ((10 : ℚ) ^ fracDigits)
  if neg then -mag else mag

/-- Decimal(s) on a string: the decimal numeric string syntax restricted to
the forms this repository's data can carry (optional sign, digits, at most
one point; exponents are out of scope).  Returns the exact rational, or
nothing when the string is malformed (Python raises
decimal.InvalidOperation there). -/
def parse_decimal_string (s : String) : Option ℚ :=
  let cs := s.toList
  let signed : Bool × List Char :=
    match cs with
    | '-' :: t => (true, t)
    | '+' :: t => (false, t)
    | t => (false, t)
  match (signed.2).splitOn '.' with
  | [w] =>
    if w ≠ [] ∧ w.all Char.isDigit then
      some (ratOfParts signed.1 (digitsToNat w) 0 0)
    else Option.none
  | [w, f] =>
    if (w ++ f) ≠ [] ∧ (w ++ f).all Char.isDigit then
      some (ratOfParts signed.1 (digitsToNat w) (digitsToNat f) f.length)
    else Option.none
  | _ => Option.none

/-- Decimal(str(discount_value)): exact for numeric values; for strings the
parse either yields the denoted rational or raises decimal.InvalidOperation.
(The None case never reaches this conversion, the truthiness guard returns
first; str(None) would parse as the non-numeric string "None".) -/
def decimal_of_discval : DiscVal → Except ExcKind ℚ
  | .num v => .ok v
  | .str s =>
    match parse_decimal_string s with
    | some v => .ok v
    | Option.none => .error .invalidOperation
  | .none => .error .invalidOperation

/-- calculate_discount from app/utils/invoice_utils.py (lines 39-65).  The
try block converts the value with Decimal(str(...)) and branches on the
discount type; its except clause catches only ValueError and TypeError and
returns a zero discount, so any other exception (decimal.InvalidOperation in
particular) propagates. -/
def calculate_discount (discount_type : Option String) (discount_value : DiscVal)
    (subtotal : ℚ) : Except ExcKind ℚ :=
  if ¬ is_discount_type discount_type ∨ discValFalsy discount_value then
    .ok 0
  else
    match decimal_of_discval discount_value with
    | .error e =>
      if e = .valueError ∨ e = .typeError then .ok 0 else .error e
    | .ok disc_val =>
      if discount_type = some "fixed" then
        .ok (if 0 < disc_val then min disc_val subtotal else 0)
      else if discount_type = some "percent" ∨ discount_type = some "percentage" then
        .ok (if 0 ≤ disc_val ∧ disc_val ≤ 100 then disc_val / 100 * subtotal else 0)
      else
        .ok 0

/-- VAT_RATE constant from app/utils/invoice_utils.py. -/
def VAT_RATE : ℚ := 75 / 10

/-- CLIENT_TYPE_STUDENT constant from app/utils/invoice_utils.py. -/
def CLIENT_TYPE_STUDENT : ℤ := 1

/-- calculate_vat from app/utils/invoice_utils.py: students are VAT-exempt,
everyone else pays vat_rate percent of the amount. -/
def calculate_vat (amount : ℚ) (client_type : ℤ) (vat_rate : ℚ) : ℚ :=
  if client_type = CLIENT_TYPE_STUDENT then 0 else vat_rate / 100 * amount

/-- Item row from app/models/item.py (the stored qty and rate are integer
columns, but amounts assigned by the services are Decimal; all are carried
as rationals). -/
structure Item where
  id : ℕ
  item_desc : String
  qty : ℚ
  rate : ℚ
  amount : ℚ
  invoice_id : ℕ
deriving DecidableEq, Repr

/-- Invoice row from app/models/invoice.py, with the loaded items
relationship.  Dates are abstracted to integers; payments live in the
Database state (see below) keyed by invoice_id. -/
structure Invoice where
  id : ℕ
  invoice_no : Option String
  invoice_due : ℤ
  client_type : ℤ
  currency : ℤ
  client_id : ℕ
  status : InvoiceStatus
  purchase_no : Option ℕ
  disc_type : Option String
  disc_value : Option String
  disc_desc : Option String
  view_count : Option ℕ
  send_reminders : Option Bool
  reminder_frequency : Option ℕ
  items : List Item
deriving DecidableEq, Repr

/-- InvoiceTotals TypedDict from app/utils/invoice_utils.py. -/
structure InvoiceTotals where
  subtotal : ℚ
  discount : ℚ
  total : ℚ
  vat : ℚ
  vat_total : ℚ
deriving DecidableEq, Repr

/-- The invoice's disc_value column (str | None) as the value handed to
calculate_discount. -/
def discval_of_column : Option String → DiscVal
  | Option.none => .none
  | some s => .str s

/-- calculate_invoice_totals from app/utils/invoice_utils.py: zero totals on
an empty item list, otherwise subtotal = sum of item amounts, discount from
calculate_discount (whose InvalidOperation propagates), VAT by client type,
all five outputs quantized to 2 decimals with ROUND_HALF_UP. -/
def calculate_invoice_totals (invoice : Invoice) : Except ExcKind InvoiceTotals :=
  if invoice.items = [] then
    .ok ⟨0, 0, 0, 0, 0⟩
  else do
    let subtotal := invoice.items.foldl (fun acc it => acc + it.amount) 0
    let discount ← calculate_discount invoice.disc_type
      (discval_of_column invoice.disc_value) subtotal
    let total_after_discount := subtotal - discount
    let vat := calculate_vat total_after_discount invoice.client_type VAT_RATE
    let vat_total :=
      if invoice.client_type = CLIENT_TYPE_STUDENT then total_after_discount
      else total_after_discount + vat
    pure ⟨quantize2HalfUp subtotal, quantize2HalfUp discount,
      quantize2HalfUp total_after_discount, quantize2HalfUp vat,
      quantize2HalfUp vat_total⟩

/-- Payment mode enum from app/models/payment.py (PaymentMode). -/
inductive PaymentMode where
  | cash
  | bankTransfer
  | check
  | creditCard
  | debitCard
  | mobilePayment
  | other
deriving DecidableEq, Repr

/-- Payment row from app/models/payment.py. -/
structure Payment where
  id : ℕ
  client_name : String
  payment_date : ℤ
  payment_mode : PaymentMode
  reference_number : Option String
  amount_paid : ℚ
  invoice_id : ℕ
  status : PaymentStatus
deriving DecidableEq, Repr

/-- Sum of the amounts of a payment list's non-cancelled payments (the
generator expression inside calculate_remaining_balance). -/
def non_cancelled_sum (payments : List Payment) : ℚ :=
  (payments.filter (fun p => p.status ≠ PaymentStatus.cancelled)).foldl
    (fun acc p => acc + p.amount_paid) 0

/-- calculate_remaining_balance from app/services/payment_service.py
(lines 36-49): the invoice grand total (vat_total) minus the non-cancelled
payment sum.  The payments argument is the invoice.payments relationship. -/
def calculate_remaining_balance (invoice : Invoice) (payments : List Payment) :
    Except ExcKind ℚ := do
  let totals ← calculate_invoice_totals invoice
  let invoice_total := totals.vat_total
  pure (invoice_total - non_cancelled_sum payments)

/-- determine_payment_status from app/services/payment_service.py
(lines 52-66). -/
def determine_payment_status (invoice : Invoice) (payments : List Payment) :
    Except ExcKind InvoicePaymentState := do
  let remaining_balance ← calculate_remaining_balance invoice payments
  let totals ← calculate_invoice_totals invoice
  let invoice_total := totals.vat_total
  pure (if remaining_balance = 0 then .fullyPaid
    else if remaining_balance < 0 then .overpaid
    else if remaining_balance < invoice_total then .partiallyPaid
    else .unpaid)

/-- _update_invoice_status_after_payment from app/services/payment_service.py
(lines 122-133): writes the derived status directly, with no call into
validate_status_transition; when the aggregate state is unpaid no branch
fires and the invoice is left as it is. -/
def update_invoice_status_after_payment (invoice : Invoice)
    (payments : List Payment) : Except ExcKind Invoice := do
  let payment_status ← determine_payment_status invoice payments
  pure (if payment_status = InvoicePaymentState.fullyPaid then
      { invoice with status := InvoiceStatus.paid }
    else if payment_status = InvoicePaymentState.overpaid then
      { invoice with status := InvoiceStatus.paid }
    else if payment_status = InvoicePaymentState.partiallyPaid then
      { invoice with status := InvoiceStatus.partiallyPaid }
    else invoice)

/-- Client row from app/models/client.py (only the fields the services read). -/
structure Client where
  id : ℕ
  name : String
  email : String
deriving DecidableEq, Repr

/-- The relational store: the three tables the verified services touch.
Items are carried inside their invoice (the cascade-owned relationship);
payments are a table keyed by invoice_id. -/
structure Database where
  clients : List Client
  invoices : List Invoice
  payments : List Payment
deriving DecidableEq, Repr

/-- The typed domain errors of app/core/exceptions.py and the two error
classes transaction_scope raises, identified by their stable code (the
human-readable messages are elided). -/
inductive AppError where
  | validation (code : String)
  | notFound (resource : String)
  | conflict (code : String)
  | connection (code : String)
  | transactionFailure (code : String)
deriving DecidableEq, Repr

/-- Storage-layer (SQLAlchemy) exception classes distinguished by
transaction_scope's handler chain, each carrying the original message. -/
inductive DbError where
  | integrityError (orig : String)
  | operationalError (orig : String)
  | invalidRequestError (orig : String)
  | otherSqlalchemyError (orig : String)
deriving DecidableEq, Repr

/-- Everything a service operation can raise: an application exception, a
storage-layer exception, or a plain Python exception (here: the Decimal
errors of the Monetary Calculator). -/
inductive Err where
  | app (e : AppError)
  | dbe (e : DbError)
  | exc (e : ExcKind)
deriving DecidableEq, Repr

/-- The error translation of transaction_scope's except chain from
app/services/database.py (lines 36-115): IntegrityError becomes a
ConflictError with code CONSTRAINT_VIOLATION, OperationalError a
ConnectionError, InvalidRequestError and any other SQLAlchemyError a
TransactionError.  (The four DbError constructors are disjoint, so the
Python handler order is immaterial here.) -/
def translate_db_error : DbError → AppError
  | .integrityError _ => .conflict "CONSTRAINT_VIOLATION"
  | .operationalError _ => .connection "DB_CONNECTION_ERROR"
  | .invalidRequestError _ => .transactionFailure "INVALID_SESSION_STATE"
  | .otherSqlalchemyError _ => .transactionFailure "DATABASE_ERROR"

/-- What leaves transaction_scope's except chain when the body raises: a
storage-layer exception is translated by translate_db_error, an application
exception or plain Python exception is re-raised unchanged. -/
def rollback_translate : Err → Err
  | .dbe e => .app (translate_db_error e)
  | .app e => .app e
  | .exc e => .exc e

/-- transaction_scope from app/services/database.py (lines 25-128): run the
body against the store; on success commit its result, on an error roll back
and raise the (possibly translated) error.  Rollback is the shape of the
type: an erring body yields no state, so the pre-transaction store stays
visible. -/
def transaction_scope {β : Type} (body : Database → Except Err β)
    (db : Database) : Except Err β :=
  match body db with
  | .ok v => .ok v
  | .error e => .error (rollback_translate e)

/-- The store a caller sees after an operation: the new state on commit, the
unchanged pre-transaction state after a rollback. -/
def visible_database {α : Type} (result : Except Err (α × Database))
    (before : Database) : Database :=
  match result with
  | .ok (_, s) => s
  | .error _ => before

/-- _validate_client_exists from app/services/invoice_service.py. -/
def validate_client_exists (client_id : ℕ) (db : Database) :
    Except Err Client :=
  match db.clients.find? (fun c => c.id == client_id) with
  | some c => .ok c
  | Option.none => .error (.app (.notFound "client"))

/-- _validate_invoice_exists from app/services/invoice_service.py and
app/services/payment_service.py. -/
def validate_invoice_exists (invoice_id : ℕ) (db : Database) :
    Except Err Invoice :=
  match db.invoices.find? (fun i => i.id == invoice_id) with
  | some i => .ok i
  | Option.none => .error (.app (.notFound "invoice"))

/-- _validate_payment_reference_unique from app/services/payment_service.py
(lines 87-107): nothing to check for a missing (or empty, hence falsy)
reference; otherwise a payment of the same invoice with the same reference
number is a ConflictException with code DUPLICATE_PAYMENT_REFERENCE. -/
def validate_payment_reference_unique (invoice_id : ℕ)
    (reference_number : Option String) (db : Database) : Except Err Unit :=
  match reference_number with
  | Option.none => .ok ()
  | some ref =>
    if ref = "" then .ok ()
    else
      match db.payments.find?
          (fun p => p.invoice_id == invoice_id
            && p.reference_number == some ref) with
      | some _ => .error (.app (.conflict "DUPLICATE_PAYMENT_REFERENCE"))
      | Option.none => .ok ()

/-- PaymentCreate schema from app/schemas/payment.py. -/
structure PaymentCreate where
  client_name : String
  payment_mode : PaymentMode
  payment_date : ℤ
  amount_paid : ℚ
  reference_number : Option String
  status : PaymentStatus
  invoice_id : ℕ
deriving DecidableEq, Repr

/-- The primary key the store generates at flush time for a new payment row. -/
def next_payment_id (db : Database) : ℕ :=
  (db.payments.map (fun p => p.id)).foldl max 0 + 1

/-- _create_payment_record from app/services/payment_service.py: build the
row from the validated data, add it and flush (no commit). -/
def create_payment_record (payment_data : PaymentCreate) (db : Database) :
    Payment × Database :=
  let payment : Payment :=
    { id := next_payment_id db
      client_name := payment_data.client_name
      payment_date := payment_data.payment_date
      payment_mode := payment_data.payment_mode
      reference_number := payment_data.reference_number
      amount_paid := payment_data.amount_paid
      invoice_id := payment_data.invoice_id
      status := payment_data.status }
  (payment, { db with payments := db.payments ++ [payment] })

/-- The invoice.payments relationship: the payment rows of one invoice. -/
def payments_of (db : Database) (invoice_id : ℕ) : List Payment :=
  db.payments.filter (fun p => p.invoice_id == invoice_id)

/-- Writing a mutated invoice object back to its row. -/
def replace_invoice (db : Database) (invoice : Invoice) : Database :=
  { db with invoices :=
      db.invoices.map (fun i => if i.id = invoice.id then invoice else i) }

/-- create_payment from app/services/payment_service.py: validate the
invoice and the reference, persist the payment, all inside
transaction_scope. -/
def create_payment (payment_data : PaymentCreate) (db : Database) :
    Except Err (Payment × Database) :=
  transaction_scope (fun s => do
    let _ ← validate_invoice_exists payment_data.invoice_id s
    let _ ← validate_payment_reference_unique payment_data.invoice_id
      payment_data.reference_number s
    pure (create_payment_record payment_data s)) db

/-- create_payment_and_update_invoice from app/services/payment_service.py
(lines 221-249): validate, persist the payment, then recompute the
invoice's status from its payments (which, after the flush, include the new
row) and write it back, atomically. -/
def create_payment_and_update_invoice (payment_data : PaymentCreate)
    (db : Database) : Except Err (Payment × Database) :=
  transaction_scope (fun s => do
    let invoice ← validate_invoice_exists payment_data.invoice_id s
    let _ ← validate_payment_reference_unique payment_data.invoice_id
      payment_data.reference_number s
    let flushed := create_payment_record payment_data s
    let invoice2 ← (update_invoice_status_after_payment invoice
      (payments_of flushed.2 invoice.id)).mapError Err.exc
    pure (flushed.1, replace_invoice flushed.2 invoice2)) db

/-- delete_payment_and_update_invoice from app/services/payment_service.py
(lines 292-322): load the payment (else NotFoundException), delete it,
flush, then recompute the owning invoice's status from the remaining
payments and write it back, atomically. -/
def delete_payment_and_update_invoice (payment_id : ℕ) (db : Database) :
    Except Err (ℕ × Database) :=
  transaction_scope (fun s => do
    let payment ← match s.payments.find? (fun p => p.id == payment_id) with
      | some p => Except.ok p
      | Option.none => Except.error (Err.app (.notFound "payment"))
    let invoice ← match s.invoices.find?
        (fun i => i.id == payment.invoice_id) with
      | some i => Except.ok i
      | Option.none => Except.error (Err.app (.notFound "invoice"))
    let deleted : Database :=
      { s with payments := s.payments.filter (fun p => p.id != payment_id) }
    let invoice2 ← (update_invoice_status_after_payment invoice
      (payments_of deleted invoice.id)).mapError Err.exc
    pure (payment.invoice_id, replace_invoice deleted invoice2)) db

/-- Zero-pad a digit string on the left to the given width (the Python
format spec 06d). -/
def padLeftZeros (width : ℕ) (s : String) : String :=
  String.mk (List.replicate (width - s.length) '0') ++ s

/-- generate_invoice_number from app/utils/invoice_utils.py: INV, the
current year, and the zero-padded database id.  The wall-clock year is an
explicit argument here. -/
def generate_invoice_number (current_year : ℕ) (invoice_id : ℕ) : String :=
  "INV-" ++ toString current_year ++ "-" ++ padLeftZeros 6 (toString invoice_id)

/-- ItemCreate schema from app/schemas/item.py: qty and rate are integers
(qty ≥ 1, rate ≥ 0 by field validation). -/
structure ItemCreate where
  item_desc : String
  qty : ℤ
  rate : ℤ
deriving DecidableEq, Repr

/-- ItemUpdate schema from app/schemas/item.py: every field optional, only
set fields are applied. -/
structure ItemUpdate where
  item_desc : Option String
  qty : Option ℤ
  rate : Option ℤ
deriving DecidableEq, Repr

/-- InvoiceCreate schema from app/schemas/invoice.py (invoice_due is a
required field there, so create_invoice's due-date-defaulting branch never
fires and is not modelled). -/
structure InvoiceCreate where
  invoice_no : String
  purchase_no : Option ℕ
  invoice_due : ℤ
  client_type : ℤ
  currency : ℤ
  client_id : ℕ
  disc_type : Option String
  disc_value : Option String
  disc_desc : Option String
  items : List ItemCreate
  send_reminders : Option Bool
  reminder_frequency : Option ℕ
deriving DecidableEq, Repr

/-- The item amount computed inside create_invoice
(app/services/invoice_service.py line 146): (qty * rate).quantize(0.01)
with no rounding argument, that is the Decimal context default
ROUND_HALF_EVEN. -/
def create_invoice_item_amount (qty rate : ℚ) : ℚ :=
  quantize2HalfEven (qty * rate)

/-- The item amount computed in app/services/item_service.py
(add_item_to_invoice and update_item): (qty * rate).quantize(0.01,
rounding=ROUND_HALF_UP). -/
def item_service_item_amount (qty rate : ℚ) : ℚ :=
  quantize2HalfUp (qty * rate)

/-- The storage constraint on an item row: its amount must fit the
DECIMAL(15, 2) column.  A row outside the range makes the flush raise a
SQLAlchemyError (the storage-level failure of the atomicity property). -/
def item_row_fits (amount : ℚ) : Prop := |amount| < 10 ^ 13

instance (amount : ℚ) : Decidable (item_row_fits amount) := by
  unfold item_row_fits; infer_instance

/-- The item-insertion loop of create_invoice: one Item row per ItemCreate,
ids assigned sequentially at flush; a row violating the storage constraint
raises a storage-layer error, which aborts the whole transaction. -/
def insert_invoice_items (invoice_id : ℕ) :
    ℕ → List ItemCreate → Except Err (List Item)
  | _, [] => .ok []
  | next_id, d :: rest =>
    if item_row_fits (create_invoice_item_amount (d.qty : ℚ) (d.rate : ℚ)) then do
      let tail ← insert_invoice_items invoice_id (next_id + 1) rest
      pure (({ id := next_id
               item_desc := d.item_desc
               qty := (d.qty : ℚ)
               rate := (d.rate : ℚ)
               amount := create_invoice_item_amount (d.qty : ℚ) (d.rate : ℚ)
               invoice_id := invoice_id } : Item) :: tail)
    else .error (.dbe (.otherSqlalchemyError "DataError"))

/-- The primary key the store generates at flush time for a new invoice row. -/
def next_invoice_id (db : Database) : ℕ :=
  (db.invoices.map (fun i => i.id)).foldl max 0 + 1

/-- create_invoice from app/services/invoice_service.py (lines 118-196):
inside one transaction_scope, validate the client, insert the invoice row
(obtaining its generated id), derive the invoice number and purchase number
from that id, insert every item, and commit; any error rolls the whole
creation back.  The fire-and-forget notification tasks have no effect on
the store and are not modelled. -/
def create_invoice (invoice_data : InvoiceCreate) (current_year : ℕ)
    (db : Database) : Except Err (Invoice × Database) :=
  transaction_scope (fun s => do
    let _client ← validate_client_exists invoice_data.client_id s
    let invoice_id := next_invoice_id s
    let items ← insert_invoice_items invoice_id 1 invoice_data.items
    let invoice : Invoice :=
      { id := invoice_id
        invoice_no := some (generate_invoice_number current_year invoice_id)
        invoice_due := invoice_data.invoice_due
        client_type := invoice_data.client_type
        currency := invoice_data.currency
        client_id := invoice_data.client_id
        status := .draft
        purchase_no := some invoice_id
        disc_type := invoice_data.disc_type
        disc_value := invoice_data.disc_value
        disc_desc := invoice_data.disc_desc
        view_count := some 0
        send_reminders := invoice_data.send_reminders
        reminder_frequency := invoice_data.reminder_frequency
        items := items }
    pure (invoice, { s with invoices := s.invoices ++ [invoice] })) db

/-- The item table as the services query it (every invoice's rows). -/
def all_items (db : Database) : List Item :=
  (db.invoices.map (fun i => i.items)).flatten

/-- db.query(Item).filter(Item.id == item_id).first(). -/
def find_item (db : Database) (item_id : ℕ) : Option Item :=
  (all_items db).find? (fun it => it.id == item_id)

/-- The primary key the store generates at flush time for a new item row. -/
def next_item_id (db : Database) : ℕ :=
  ((all_items db).map (fun it => it.id)).foldl max 0 + 1

/-- Appending a new item row under its invoice. -/
def insert_item (db : Database) (invoice_id : ℕ) (item : Item) : Database :=
  { db with invoices := db.invoices.map (fun i =>
      if i.id = invoice_id then { i with items := i.items ++ [item] } else i) }

/-- Writing a mutated item object back to its row. -/
def write_item (db : Database) (item : Item) : Database :=
  { db with invoices := db.invoices.map (fun i =>
      { i with items := i.items.map (fun j => if j.id = item.id then item else j) }) }

/-- Deleting one item row by id. -/
def remove_item (db : Database) (item_id : ℕ) : Database :=
  { db with invoices := db.invoices.map (fun i =>
      { i with items := i.items.filter (fun it => it.id != item_id) }) }

/-- add_item_to_invoice from app/services/item_service.py (lines 13-43):
validate the invoice, compute amount = qty x rate quantized half-up,
persist the row transactionally. -/
def add_item_to_invoice (invoice_id : ℕ) (item_data : ItemCreate)
    (db : Database) : Except Err (Item × Database) :=
  transaction_scope (fun s => do
    let _ ← validate_invoice_exists invoice_id s
    let qty : ℚ := (item_data.qty : ℚ)
    let rate : ℚ := (item_data.rate : ℚ)
    let item : Item :=
      { id := next_item_id s, item_desc := item_data.item_desc, qty := qty,
        rate := rate, amount := item_service_item_amount qty rate,
        invoice_id := invoice_id }
    pure (item, insert_item s invoice_id item)) db

/-- update_item from app/services/item_service.py (lines 46-76): apply the
set fields, and when qty or rate was among them recompute amount with
half-up rounding. -/
def update_item (item_id : ℕ) (item_data : ItemUpdate) (db : Database) :
    Except Err (Item × Database) :=
  transaction_scope (fun s => do
    let item ← match find_item s item_id with
      | some it => Except.ok it
      | Option.none => Except.error (Err.app (.notFound "item"))
    let item1 : Item :=
      { item with
        item_desc := item_data.item_desc.getD item.item_desc
        qty := match item_data.qty with
          | some q => (q : ℚ)
          | Option.none => item.qty
        rate := match item_data.rate with
          | some r => (r : ℚ)
          | Option.none => item.rate }
    let item2 : Item :=
      if item_data.qty ≠ Option.none ∨ item_data.rate ≠ Option.none then
        { item1 with amount := item_service_item_amount item1.qty item1.rate }
      else item1
    pure (item2, write_item s item2)) db

/-- delete_item from app/services/item_service.py (lines 79-106): load the
item (else NotFoundException); unless the override flag is set, count the
items of the owning invoice and refuse to delete the last one with a
ConflictException; otherwise delete the row, transactionally. -/
def delete_item (item_id : ℕ) (db : Database)
    (allow_last_item_delete : Bool) : Except Err (Unit × Database) :=
  transaction_scope (fun s => do
    let item ← match find_item s item_id with
      | some it => Except.ok it
      | Option.none => Except.error (Err.app (.notFound "item"))
    let _ ← (if allow_last_item_delete then Except.ok ()
      else
        let item_count :=
          ((all_items s).filter (fun it => it.invoice_id == item.invoice_id)).length
        if item_count = 1 then
          Except.error (Err.app (.conflict "LAST_ITEM_DELETION_FORBIDDEN"))
        else Except.ok ())
    pure ((), remove_item s item_id)) db

/-- A concrete item row used by the witness evaluations. -/
def sample_item : Item :=
  { id := 1, item_desc := "tuition", qty := 1, rate := 100, amount := 100,
    invoice_id := 1 }

/-- A concrete invoice (student client type, no discount, one 100-unit item)
used by the witness evaluations. -/
def sample_invoice : Invoice :=
  { id := 1, invoice_no := some "INV-2026-000001", invoice_due := 0,
    client_type := 1, currency := 1, client_id := 1, status := .sent,
    purchase_no := some 1, disc_type := Option.none, disc_value := Option.none,
    disc_desc := Option.none, view_count := some 0,
    send_reminders := some false, reminder_frequency := Option.none,
    items := [sample_item] }

/-- A concrete completed payment of 40 against the sample invoice. -/
def sample_payment : Payment :=
  { id := 1, client_name := "Ada", payment_date := 0, payment_mode := .cash,
    reference_number := Option.none, amount_paid := 40, invoice_id := 1,
    status := .completed }

/-- The payment-creation data used by the witnesses: a completed payment
of 100 (the sample invoice's full grand total), no reference number. -/
def sample_payment_data : PaymentCreate :=
  { client_name := "Ada", payment_mode := .cash, payment_date := 0,
    amount_paid := 100, reference_number := Option.none, status := .completed,
    invoice_id := 1 }

/-- The payment row the store creates from sample_payment_data. -/
def sample_new_payment : Payment :=
  { id := 1, client_name := "Ada", payment_date := 0, payment_mode := .cash,
    reference_number := Option.none, amount_paid := 100, invoice_id := 1,
    status := .completed }

/-- A store holding only the sample invoice, cancelled, and no payments. -/
def sample_cancelled_db : Database :=
  { clients := [], invoices := [{ sample_invoice with status := .cancelled }],
    payments := [] }

/-- A store holding the sample invoice marked paid and its one payment. -/
def sample_paid_db : Database :=
  { clients := [], invoices := [{ sample_invoice with status := .paid }],
    payments := [sample_payment] }

/-- A second item row for the two-item deletion scenario. -/
def sample_item2 : Item :=
  { id := 2, item_desc := "books", qty := 1, rate := 50, amount := 50,
    invoice_id := 1 }

/-- A store whose one invoice has exactly one item. -/
def sample_single_item_db : Database :=
  { clients := [], invoices := [sample_invoice], payments := [] }

/-- A store whose one invoice has two items. -/
def sample_two_item_db : Database :=
  { clients := [],
    invoices := [{ sample_invoice with items := [sample_item, sample_item2] }],
    payments := [] }

/-- A concrete client row for the creation scenarios. -/
def sample_client : Client := { id := 7, name := "Bob", email := "bob@example.com" }

/-- A store holding one client and nothing else. -/
def sample_client_db : Database :=
  { clients := [sample_client], invoices := [], payments := [] }

/-- An item whose computed amount overflows the DECIMAL(15, 2) column. -/
def sample_bad_item_data : ItemCreate :=
  { item_desc := "mega", qty := 100000000, rate := 100000000 }

/-- Invoice-creation data whose second item triggers the storage failure. -/
def sample_bad_invoice_data : InvoiceCreate :=
  { invoice_no := "PENDING", purchase_no := Option.none, invoice_due := 0,
    client_type := 2, currency := 1, client_id := 7,
    disc_type := Option.none, disc_value := Option.none,
    disc_desc := Option.none,
    items := [{ item_desc := "pen", qty := 1, rate := 10 }, sample_bad_item_data],
    send_reminders := Option.none, reminder_frequency := Option.none }


/-- A payment on invoice 1 carrying reference number REF-1. -/
def sample_ref_payment : Payment :=
  { id := 1, client_name := "Ada", payment_date := 0, payment_mode := .cash,
    reference_number := some "REF-1", amount_paid := 40, invoice_id := 1,
    status := .completed }

/-- A store with two invoices; only invoice 1 has the REF-1 payment. -/
def sample_two_invoice_db : Database :=
  { clients := [],
    invoices := [sample_invoice, { sample_invoice with id := 2 }],
    payments := [sample_ref_payment] }

/-- Payment data reusing REF-1 against the same invoice 1. -/
def sample_dup_payment_data : PaymentCreate :=
  { client_name := "Bob", payment_mode := .cash, payment_date := 0,
    amount_paid := 10, reference_number := some "REF-1", status := .completed,
    invoice_id := 1 }

/-- Payment data reusing REF-1 against the other invoice 2. -/
def sample_cross_payment_data : PaymentCreate :=
  { client_name := "Bob", payment_mode := .cash, payment_date := 0,
    amount_paid := 10, reference_number := some "REF-1", status := .completed,
    invoice_id := 2 }


/-!  Theorems.  First the helper lemmas about the rounding embedding, then
one theorem (with witness or counterexample) per claim of the spec. -/

theorem roundHalfEven_intCast (k : ℤ) : roundHalfEven (k : ℚ) = k := by
  simp only [roundHalfEven, Int.floor_intCast, sub_self]
  norm_num

theorem roundHalfUp_intCast (k : ℤ) : roundHalfUp (k : ℚ) = k := by
  unfold roundHalfUp
  split
  · rw [add_comm, Int.floor_add_int]
    norm_num
  · rw [show (-(k : ℚ) + 1 / 2) = 1 / 2 + ((-k : ℤ) : ℚ) by push_cast; ring,
      Int.floor_add_int]
    norm_num

theorem quantize2HalfEven_intCast (m : ℤ) : quantize2HalfEven (m : ℚ) = (m : ℚ) := by
  unfold quantize2HalfEven
  rw [show (100 : ℚ) * (m : ℚ) = ((100 * m : ℤ) : ℚ) by push_cast; ring,
    roundHalfEven_intCast]
  push_cast
  exact mul_div_cancel_left₀ _ (by norm_num)

theorem quantize2HalfUp_intCast (m : ℤ) : quantize2HalfUp (m : ℚ) = (m : ℚ) := by
  unfold quantize2HalfUp
  rw [show (100 : ℚ) * (m : ℚ) = ((100 * m : ℤ) : ℚ) by push_cast; ring,
    roundHalfUp_intCast]
  push_cast
  exact mul_div_cancel_left₀ _ (by norm_num)

/-- C1: for every pair of invoice statuses, validate_status_transition
succeeds exactly when the statuses are equal or the requested status is in
the transition table's allowed set (stated literally per the spec's table),
and in every other case it fails with the error carrying the current
status, the requested status and the allowed set. -/
theorem validate_status_transition_correct :
    ∀ current requested : InvoiceStatus,
      (validate_status_transition current requested = .ok () ∧
        (current = requested ∨ specAllowedTransition current requested)) ∨
      (validate_status_transition current requested =
          .error ⟨current, requested, ALLOWED_STATUS_TRANSITIONS current⟩ ∧
        ¬(current = requested ∨ specAllowedTransition current requested)) := by
  decide

/-- C4 counterexample: during create_invoice the item amount is quantized
with the Decimal default ROUND_HALF_EVEN, so the half-cent product
1 x 10.025 is stored as 10.02, not the 10.03 that round-half-up (as the
claim states for every created item) would give. -/
theorem create_invoice_amount_not_half_up :
    create_invoice_item_amount 1 (401 / 40) = 1002 / 100 ∧
    quantize2HalfUp (1 * (401 / 40)) = 1003 / 100 ∧
    create_invoice_item_amount 1 (401 / 40) ≠ quantize2HalfUp (1 * (401 / 40)) := by
  refine ⟨?_, ?_, ?_⟩ <;>
    norm_num [create_invoice_item_amount, quantize2HalfEven, roundHalfEven,
      quantize2HalfUp, roundHalfUp]

/-- C4 (amended): items added or updated through item_service use
round-half-up; items inserted by create_invoice use the Decimal default
round-half-even; and since the schema validates qty and rate as integers,
every reachable product is exact, both modes agree, and the stored amount
is exactly qty x rate on the whole schema domain. -/
theorem item_amounts_correct :
    ∀ q r : ℤ,
      create_invoice_item_amount (q : ℚ) (r : ℚ) = ((q * r : ℤ) : ℚ) ∧
      item_service_item_amount (q : ℚ) (r : ℚ) = ((q * r : ℤ) : ℚ) ∧
      create_invoice_item_amount (q : ℚ) (r : ℚ) =
        quantize2HalfUp ((q : ℚ) * (r : ℚ)) := by
  intro q r
  have hcast : (q : ℚ) * (r : ℚ) = ((q * r : ℤ) : ℚ) := by push_cast; ring
  refine ⟨?_, ?_, ?_⟩
  · rw [create_invoice_item_amount, hcast, quantize2HalfEven_intCast]
  · rw [item_service_item_amount, hcast, quantize2HalfUp_intCast]
  · rw [create_invoice_item_amount, hcast, quantize2HalfEven_intCast,
      quantize2HalfUp_intCast]

/-- C5 (code bug evaluated): on the non-numeric discount value "abc",
calculate_discount raises decimal.InvalidOperation instead of returning a
zero discount, because its except clause catches only ValueError and
TypeError while Decimal's parse failure is an ArithmeticError subclass. -/
theorem calculate_discount_raises_on_nonnumeric :
    calculate_discount (some "fixed") (.str "abc") 100 =
      .error .invalidOperation := by
  decide

/-- C6: for every discount configuration and (nonnegative, as every subtotal
of the program is a sum of schema-validated item amounts) subtotal, the
computed discount lies in [0, subtotal]; a fixed discount equals
min(value, subtotal) for positive values and 0 otherwise; a percent or
percentage discount equals subtotal x value/100 inside [0, 100] and 0
outside; an unrecognized or missing type yields 0. -/
theorem calculate_discount_correct (discount_type : Option String)
    (discount_value : DiscVal) (subtotal v : ℚ) (hsub : 0 ≤ subtotal) :
    (∀ d, calculate_discount discount_type discount_value subtotal = .ok d →
      0 ≤ d ∧ d ≤ subtotal) ∧
    (0 < v →
      calculate_discount (some "fixed") (.num v) subtotal = .ok (min v subtotal)) ∧
    (v ≤ 0 → calculate_discount (some "fixed") (.num v) subtotal = .ok 0) ∧
    (0 ≤ v → v ≤ 100 →
      calculate_discount (some "percent") (.num v) subtotal =
        .ok (v / 100 * subtotal) ∧
      calculate_discount (some "percentage") (.num v) subtotal =
        .ok (v / 100 * subtotal)) ∧
    (v < 0 ∨ 100 < v →
      calculate_discount (some "percent") (.num v) subtotal = .ok 0 ∧
      calculate_discount (some "percentage") (.num v) subtotal = .ok 0) ∧
    (¬ is_discount_type discount_type →
      calculate_discount discount_type discount_value subtotal = .ok 0) := by
  constructor
  · intro d h
    rw [calculate_discount] at h
    by_cases hg : ¬ is_discount_type discount_type ∨ discValFalsy discount_value
    · rw [if_pos hg] at h
      injection h with h
      subst h
      exact ⟨le_refl 0, hsub⟩
    · rw [if_neg hg] at h
      split at h
      · split_ifs at h
        · injection h with h
          subst h
          exact ⟨le_refl 0, hsub⟩
      · rename_i w heq
        split_ifs at h with h1 h2 h3 h4
        all_goals injection h with h
        all_goals subst h
        · exact ⟨le_min h2.le hsub, min_le_right _ _⟩
        · exact ⟨le_refl 0, hsub⟩
        · refine ⟨mul_nonneg (div_nonneg h4.1 (by norm_num)) hsub, ?_⟩
          calc w / 100 * subtotal ≤ 1 * subtotal :=
              mul_le_mul_of_nonneg_right ((div_le_one (by norm_num)).2 h4.2) hsub
            _ = subtotal := one_mul subtotal
        · exact ⟨le_refl 0, hsub⟩
        · exact ⟨le_refl 0, hsub⟩
  refine ⟨?_, ?_, ?_, ?_, ?_⟩
  · intro hv
    simp [calculate_discount, is_discount_type, discValFalsy,
      decimal_of_discval, hv.ne', hv]
  · intro hv
    rcases hv.lt_or_eq with h0 | h0
    · simp [calculate_discount, is_discount_type, discValFalsy,
        decimal_of_discval, h0.ne, not_lt.mpr hv]
    · subst h0
      simp [calculate_discount, discValFalsy]
  · intro h0 h100
    rcases h0.lt_or_eq with hz | hz
    · constructor <;>
        simp [calculate_discount, is_discount_type, discValFalsy,
          decimal_of_discval, hz.ne', h0, h100]
    · rw [← hz]
      constructor <;> simp [calculate_discount, discValFalsy]
  · intro hout
    have hne : v ≠ 0 := by
      rcases hout with h | h
      · exact h.ne
      · exact fun hv => absurd (hv ▸ h) (by norm_num)
    have hcond : ¬ (0 ≤ v ∧ v ≤ 100) := by
      rcases hout with h | h
      · exact fun hc => absurd hc.1 (not_le.mpr h)
      · exact fun hc => absurd hc.2 (not_le.mpr h)
    constructor <;>
      simp [calculate_discount, is_discount_type, discValFalsy,
        decimal_of_discval, hne, hcond]
  · intro hnt
    simp [calculate_discount, hnt]

/-- C6 witness: the theorem applied at concrete inputs, a fixed discount of
150 against a subtotal of 100 and a 50 percent discount against 200. -/
theorem calculate_discount_correct_witness :
    calculate_discount (some "fixed") (.num 150) 100 = .ok (min 150 100) ∧
    calculate_discount (some "percent") (.num 50) 200 = .ok (50 / 100 * 200) := by
  have h1 := calculate_discount_correct (some "fixed") (.num 150) 100 150 (by norm_num)
  have h2 := calculate_discount_correct (some "percent") (.num 50) 200 50 (by norm_num)
  exact ⟨h1.2.1 (by norm_num), (h2.2.2.2.1 (by norm_num) (by norm_num)).1⟩

theorem remaining_balance_eq (invoice : Invoice) (payments : List Payment)
    (t : InvoiceTotals) (ht : calculate_invoice_totals invoice = .ok t) :
    calculate_remaining_balance invoice payments =
      .ok (t.vat_total - non_cancelled_sum payments) := by
  simp [calculate_remaining_balance, ht, bind, Except.bind, pure, Except.pure]

theorem determine_payment_status_eq (invoice : Invoice) (payments : List Payment)
    (t : InvoiceTotals) (ht : calculate_invoice_totals invoice = .ok t) :
    determine_payment_status invoice payments =
      .ok (if t.vat_total - non_cancelled_sum payments = 0 then .fullyPaid
        else if t.vat_total - non_cancelled_sum payments < 0 then .overpaid
        else if t.vat_total - non_cancelled_sum payments < t.vat_total then .partiallyPaid
        else .unpaid) := by
  simp [determine_payment_status, remaining_balance_eq invoice payments t ht, ht,
    bind, Except.bind, pure, Except.pure]

theorem payments_foldl_le (l : List Payment) (a : ℚ)
    (h : ∀ p ∈ l, 0 ≤ p.amount_paid) :
    a ≤ l.foldl (fun acc p => acc + p.amount_paid) a := by
  induction l generalizing a with
  | nil => simp
  | cons p rest ih =>
    simp only [List.foldl_cons]
    calc a ≤ a + p.amount_paid := le_add_of_nonneg_right (h p (by simp))
      _ ≤ _ := ih _ (fun q hq => h q (by simp [hq]))

theorem non_cancelled_sum_nonneg (payments : List Payment)
    (h : ∀ p ∈ payments, 0 ≤ p.amount_paid) :
    0 ≤ non_cancelled_sum payments := by
  unfold non_cancelled_sum
  exact payments_foldl_le _ 0 (fun p hp => h p (List.mem_of_mem_filter hp))


/-- C2: the remaining balance equals the invoice grand total minus the sum
of non-cancelled payment amounts, and (payment amounts being
schema-validated nonnegative) the derived aggregate state is fullyPaid iff
remaining = 0, overpaid iff remaining < 0, partiallyPaid iff
0 < remaining < total, and unpaid iff remaining = total (with payments
short of any effect, i.e. remaining positive). -/
theorem payment_aggregation_correct (invoice : Invoice) (payments : List Payment)
    (t : InvoiceTotals) (r : ℚ) (st : InvoicePaymentState)
    (ht : calculate_invoice_totals invoice = .ok t)
    (hr : calculate_remaining_balance invoice payments = .ok r)
    (hst : determine_payment_status invoice payments = .ok st)
    (hpos : ∀ p ∈ payments, 0 ≤ p.amount_paid) :
    r = t.vat_total - non_cancelled_sum payments ∧
    (st = .fullyPaid ↔ r = 0) ∧
    (st = .overpaid ↔ r < 0) ∧
    (st = .partiallyPaid ↔ 0 < r ∧ r < t.vat_total) ∧
    (st = .unpaid ↔ (r = t.vat_total ∧ 0 < r)) := by
  have hr2 := remaining_balance_eq invoice payments t ht
  rw [hr] at hr2
  injection hr2 with hre
  have hst2 := determine_payment_status_eq invoice payments t ht
  rw [hst, ← hre] at hst2
  injection hst2 with hst2
  have hsum : 0 ≤ non_cancelled_sum payments := non_cancelled_sum_nonneg payments hpos
  have hrle : r ≤ t.vat_total := by rw [hre]; linarith
  subst hst2
  refine ⟨hre, ?_, ?_, ?_, ?_⟩
  · split_ifs with h1 h2 h3 <;> simp [h1]
  · split_ifs with h1 h2 h3
    · simp [h1]
    · simp [h2]
    · simp [h2]
    · simp [h2]
  · split_ifs with h1 h2 h3
    · simp [h1]
    · have hnr : ¬ 0 < r := not_lt.mpr h2.le
      simp [hnr]
    · have hpr : 0 < r := lt_of_le_of_ne (not_lt.mp h2) (Ne.symm h1)
      simp [hpr, h3]
    · simp [h3]
  · split_ifs with h1 h2 h3
    · simp [h1]
    · have hnr : ¬ 0 < r := not_lt.mpr h2.le
      simp [hnr]
    · simp [ne_of_lt h3]
    · have hpr : 0 < r := lt_of_le_of_ne (not_lt.mp h2) (Ne.symm h1)
      have heq : r = t.vat_total := le_antisymm hrle (not_lt.mp h3)
      simp [heq, heq ▸ hpr]


theorem calculate_invoice_totals_eq (invoice : Invoice) (d : ℚ)
    (hne : ¬ invoice.items = [])
    (hd : calculate_discount invoice.disc_type (discval_of_column invoice.disc_value)
      (invoice.items.foldl (fun acc it => acc + it.amount) 0) = .ok d) :
    calculate_invoice_totals invoice =
      .ok { subtotal :=
              quantize2HalfUp (invoice.items.foldl (fun acc it => acc + it.amount) 0),
            discount := quantize2HalfUp d,
            total :=
              quantize2HalfUp (invoice.items.foldl (fun acc it => acc + it.amount) 0 - d),
            vat :=
              quantize2HalfUp (calculate_vat
                (invoice.items.foldl (fun acc it => acc + it.amount) 0 - d)
                invoice.client_type VAT_RATE),
            vat_total :=
              quantize2HalfUp
                (if invoice.client_type = CLIENT_TYPE_STUDENT then
                    invoice.items.foldl (fun acc it => acc + it.amount) 0 - d
                  else
                    invoice.items.foldl (fun acc it => acc + it.amount) 0 - d +
                      calculate_vat
                        (invoice.items.foldl (fun acc it => acc + it.amount) 0 - d)
                        invoice.client_type VAT_RATE) } := by
  simp [calculate_invoice_totals, hne, hd, bind, Except.bind, pure, Except.pure]

theorem sample_subtotal :
    sample_invoice.items.foldl (fun acc it => acc + it.amount) 0 = 100 := by
  norm_num [sample_invoice, sample_item]

theorem sample_discount :
    calculate_discount sample_invoice.disc_type
      (discval_of_column sample_invoice.disc_value) 100 = .ok 0 := by
  simp [sample_invoice, discval_of_column, calculate_discount, discValFalsy]

theorem sample_totals :
    calculate_invoice_totals sample_invoice =
      .ok { subtotal := 100, discount := 0, total := 100, vat := 0,
            vat_total := 100 } := by
  have hct : sample_invoice.client_type = 1 := rfl
  rw [calculate_invoice_totals_eq sample_invoice 0 (by simp [sample_invoice])
    (by rw [sample_subtotal]; exact sample_discount), sample_subtotal]
  norm_num [hct, calculate_vat, CLIENT_TYPE_STUDENT, quantize2HalfUp, roundHalfUp]

theorem sample_noncancelled : non_cancelled_sum [sample_payment] = 40 := by
  simp +decide [non_cancelled_sum, sample_payment]

theorem sample_remaining :
    calculate_remaining_balance sample_invoice [sample_payment] = .ok 60 := by
  rw [remaining_balance_eq sample_invoice [sample_payment] _ sample_totals,
    sample_noncancelled]
  norm_num

theorem sample_state :
    determine_payment_status sample_invoice [sample_payment] = .ok .partiallyPaid := by
  rw [determine_payment_status_eq sample_invoice [sample_payment] _ sample_totals,
    sample_noncancelled]
  norm_num

/-- C2 witness: the theorem applied to the sample invoice (grand total 100)
with one completed payment of 40: the state is partially paid. -/
theorem payment_aggregation_correct_witness :
    (0 : ℚ) < 60 ∧ (60 : ℚ) <
      InvoiceTotals.vat_total
        { subtotal := 100, discount := 0, total := 100, vat := 0, vat_total := 100 } :=
  (payment_aggregation_correct sample_invoice [sample_payment] _ 60 .partiallyPaid
    sample_totals sample_remaining sample_state
    (by intro p hp; simp at hp; subst hp; norm_num [sample_payment])).2.2.2.1.mp rfl


theorem update_status_eq (invoice : Invoice) (payments : List Payment)
    (st : InvoicePaymentState)
    (hst : determine_payment_status invoice payments = .ok st) :
    update_invoice_status_after_payment invoice payments =
      .ok (if st = InvoicePaymentState.fullyPaid then
          { invoice with status := InvoiceStatus.paid }
        else if st = InvoicePaymentState.overpaid then
          { invoice with status := InvoiceStatus.paid }
        else if st = InvoicePaymentState.partiallyPaid then
          { invoice with status := InvoiceStatus.partiallyPaid }
        else invoice) := by
  simp [update_invoice_status_after_payment, hst, bind, Except.bind, pure, Except.pure]

/-- C3: the payment-triggered status update writes the derived status with
no transition validation: whatever the starting status (cancelled
included), a fully paid or overpaid aggregate sets the invoice to paid and
a partially paid aggregate to partially_paid, both at the helper level and
through create_payment_and_update_invoice against the store. -/
theorem payment_status_bypass (invoice : Invoice) (payments : List Payment)
    (st : InvoicePaymentState)
    (hst : determine_payment_status invoice payments = .ok st) :
    (st = .fullyPaid ∨ st = .overpaid →
      update_invoice_status_after_payment invoice payments =
        .ok { invoice with status := .paid }) ∧
    (st = .partiallyPaid →
      update_invoice_status_after_payment invoice payments =
        .ok { invoice with status := .partiallyPaid }) ∧
    (∀ (payment_data : PaymentCreate) (db : Database) (inv : Invoice) (st2 : InvoicePaymentState),
      validate_invoice_exists payment_data.invoice_id db = .ok inv →
      validate_payment_reference_unique payment_data.invoice_id
        payment_data.reference_number db = .ok () →
      determine_payment_status inv
        (payments_of (create_payment_record payment_data db).2 inv.id) = .ok st2 →
      (st2 = .fullyPaid ∨ st2 = .overpaid →
        create_payment_and_update_invoice payment_data db =
          .ok ((create_payment_record payment_data db).1,
            replace_invoice (create_payment_record payment_data db).2
              { inv with status := .paid })) ∧
      (st2 = .partiallyPaid →
        create_payment_and_update_invoice payment_data db =
          .ok ((create_payment_record payment_data db).1,
            replace_invoice (create_payment_record payment_data db).2
              { inv with status := .partiallyPaid }))) := by
  refine ⟨?_, ?_, ?_⟩
  · rintro (h | h) <;> subst h <;>
      simp [update_status_eq invoice payments _ hst]
  · intro h
    subst h
    simp [update_status_eq invoice payments _ hst]
  · intro payment_data db inv st2 hv hru hst2
    constructor
    · rintro (h | h) <;> subst h <;>
        simp [create_payment_and_update_invoice, transaction_scope, hv, hru,
          update_status_eq inv _ _ hst2, bind, Except.bind, pure, Except.pure,
          Except.mapError]
    · intro h
      subst h
      simp [create_payment_and_update_invoice, transaction_scope, hv, hru,
        update_status_eq inv _ _ hst2, bind, Except.bind, pure, Except.pure,
        Except.mapError]


theorem map_replace_id (l : List Invoice) (inv : Invoice)
    (h : ∀ i ∈ l, i.id = inv.id → i = inv) :
    l.map (fun i => if i.id = inv.id then inv else i) = l := by
  induction l with
  | nil => rfl
  | cons a t ih =>
    simp only [List.map_cons]
    rw [ih (fun i hi hid => h i (by simp [hi]) hid)]
    by_cases ha : a.id = inv.id
    · rw [if_pos ha, h a (by simp) ha]
    · rw [if_neg ha]

theorem replace_invoice_self (db : Database) (inv : Invoice)
    (h : ∀ i ∈ db.invoices, i.id = inv.id → i = inv) :
    replace_invoice db inv = db := by
  unfold replace_invoice
  cases db
  simp only [Database.mk.injEq, and_true, true_and]
  exact map_replace_id _ _ h

/-- C10: when the recomputed aggregate state is unpaid the status update
returns the invoice record entirely unchanged; every status update changes
nothing but the status field; and deleting the last payment of a paid
invoice leaves the whole invoices table as it was (status stays paid). -/
theorem payment_status_unpaid_frame (invoice : Invoice) (payments : List Payment) :
    (determine_payment_status invoice payments = .ok .unpaid →
      update_invoice_status_after_payment invoice payments = .ok invoice) ∧
    (∀ inv2, update_invoice_status_after_payment invoice payments = .ok inv2 →
      inv2 = { invoice with status := inv2.status }) ∧
    (∀ (payment_id : ℕ) (db : Database) (p : Payment) (inv : Invoice),
      db.payments.find? (fun q => q.id == payment_id) = some p →
      db.invoices.find? (fun i => i.id == p.invoice_id) = some inv →
      (∀ i ∈ db.invoices, i.id = inv.id → i = inv) →
      determine_payment_status inv
        (payments_of
          { db with payments := db.payments.filter (fun q => q.id != payment_id) }
          inv.id) = .ok .unpaid →
      delete_payment_and_update_invoice payment_id db =
        .ok (p.invoice_id,
          { db with payments := db.payments.filter (fun q => q.id != payment_id) })) := by
  refine ⟨?_, ?_, ?_⟩
  · intro hun
    simp [update_status_eq invoice payments _ hun]
  · intro inv2 h
    cases hst : determine_payment_status invoice payments with
    | error e =>
      simp [update_invoice_status_after_payment, hst, bind, Except.bind] at h
    | ok st =>
      rw [update_status_eq invoice payments st hst] at h
      injection h with h
      subst h
      cases st <;> rfl
  · intro payment_id db p inv hp hi huniq hun
    have hupd := update_status_eq inv _ _ hun
    simp only [if_neg (by decide : ¬ InvoicePaymentState.unpaid = InvoicePaymentState.fullyPaid),
      if_neg (by decide : ¬ InvoicePaymentState.unpaid = InvoicePaymentState.overpaid),
      if_neg (by decide : ¬ InvoicePaymentState.unpaid = InvoicePaymentState.partiallyPaid)] at hupd
    have hrep := replace_invoice_self
      { db with payments := db.payments.filter (fun q => q.id != payment_id) } inv
      (by simpa using huniq)
    simp [delete_payment_and_update_invoice, transaction_scope, hp, hi, hupd,
      hrep, bind, Except.bind, pure, Except.pure, Except.mapError]


theorem sample_totals_any (st : InvoiceStatus) :
    calculate_invoice_totals { sample_invoice with status := st } =
      .ok { subtotal := 100, discount := 0, total := 100, vat := 0,
            vat_total := 100 } := by
  have hct : sample_invoice.client_type = 1 := rfl
  have hsub : ({ sample_invoice with status := st } : Invoice).items.foldl
      (fun acc it => acc + it.amount) 0 = 100 := by
    norm_num [sample_invoice, sample_item]
  rw [calculate_invoice_totals_eq _ 0 (by simp [sample_invoice])
    (by rw [hsub]
        simp [sample_invoice, discval_of_column, calculate_discount, discValFalsy]),
    hsub]
  norm_num [hct, calculate_vat, CLIENT_TYPE_STUDENT, quantize2HalfUp, roundHalfUp]

theorem sample_noncancelled_new : non_cancelled_sum [sample_new_payment] = 100 := by
  simp +decide [non_cancelled_sum, sample_new_payment]

theorem sample_cancelled_state :
    determine_payment_status { sample_invoice with status := .cancelled }
      [sample_new_payment] = .ok .fullyPaid := by
  rw [determine_payment_status_eq _ _ _ (sample_totals_any .cancelled),
    sample_noncancelled_new]
  norm_num

/-- C3 witness: recording a payment covering the full total against the
cancelled sample invoice commits the invoice with status paid. -/
theorem payment_status_bypass_witness :
    create_payment_and_update_invoice sample_payment_data sample_cancelled_db =
      .ok (sample_new_payment,
        { clients := [], invoices := [{ sample_invoice with status := .paid }],
          payments := [sample_new_payment] }) := by
  have hv : validate_invoice_exists sample_payment_data.invoice_id
      sample_cancelled_db = .ok { sample_invoice with status := .cancelled } := rfl
  have hru : validate_payment_reference_unique sample_payment_data.invoice_id
      sample_payment_data.reference_number sample_cancelled_db = .ok () := rfl
  have hpays : payments_of (create_payment_record sample_payment_data
        sample_cancelled_db).2
      ({ sample_invoice with status := .cancelled } : Invoice).id =
        [sample_new_payment] := rfl
  have happ := (payment_status_bypass { sample_invoice with status := .cancelled }
      [sample_new_payment] .fullyPaid sample_cancelled_state).2.2
      sample_payment_data sample_cancelled_db
      { sample_invoice with status := .cancelled } .fullyPaid hv hru
      (by rw [hpays]; exact sample_cancelled_state)
  rw [happ.1 (Or.inl rfl)]
  rfl

theorem sample_unpaid_after_delete :
    determine_payment_status { sample_invoice with status := .paid }
      (payments_of
        { sample_paid_db with
            payments := sample_paid_db.payments.filter (fun q => q.id != 1) }
        ({ sample_invoice with status := .paid } : Invoice).id) = .ok .unpaid := by
  have hplist : payments_of
      { sample_paid_db with
          payments := sample_paid_db.payments.filter (fun q => q.id != 1) }
      ({ sample_invoice with status := .paid } : Invoice).id = [] := rfl
  rw [hplist, determine_payment_status_eq _ _ _ (sample_totals_any .paid)]
  norm_num [non_cancelled_sum]

/-- C10 witness: deleting the only payment of the paid sample invoice
removes the payment row and leaves the invoice (status paid) untouched. -/
theorem payment_status_unpaid_frame_witness :
    delete_payment_and_update_invoice 1 sample_paid_db =
      .ok (1, { sample_paid_db with payments := [] }) := by
  have hp : sample_paid_db.payments.find? (fun q => q.id == 1) =
      some sample_payment := rfl
  have hi : sample_paid_db.invoices.find?
      (fun i => i.id == sample_payment.invoice_id) =
        some { sample_invoice with status := .paid } := rfl
  have h := (payment_status_unpaid_frame { sample_invoice with status := .paid }
      []).2.2 1 sample_paid_db sample_payment
      { sample_invoice with status := .paid } hp hi
      (by intro i him hid; simp [sample_paid_db] at him; exact him)
      sample_unpaid_after_delete
  rw [h]
  rfl


theorem find_item_remove (db : Database) (item_id : ℕ) :
    find_item (remove_item db item_id) item_id = Option.none := by
  unfold find_item remove_item all_items
  rw [List.find?_eq_none]
  intro it hit
  simp at hit ⊢
  obtain ⟨a, _, _, h⟩ := hit
  exact h

/-- C9: once an invoice exists, deleting its only remaining item fails with
the Conflict error LAST_ITEM_DELETION_FORBIDDEN and leaves the store (and
the item) in place, unless allow_last_item_delete is set; with two or more
items on the invoice (or with the override) the deletion succeeds and the
item row is gone. -/
theorem delete_item_last_item_protection (item_id : ℕ) (db : Database)
    (item : Item) (hfind : find_item db item_id = some item) :
    (((all_items db).filter (fun it => it.invoice_id == item.invoice_id)).length = 1 →
      delete_item item_id db false =
        .error (.app (.conflict "LAST_ITEM_DELETION_FORBIDDEN")) ∧
      visible_database (delete_item item_id db false) db = db) ∧
    (2 ≤ ((all_items db).filter (fun it => it.invoice_id == item.invoice_id)).length →
      delete_item item_id db false = .ok ((), remove_item db item_id) ∧
      find_item (remove_item db item_id) item_id = Option.none) ∧
    (delete_item item_id db true = .ok ((), remove_item db item_id) ∧
      find_item (remove_item db item_id) item_id = Option.none) := by
  refine ⟨?_, ?_, ?_⟩
  · intro hcount
    have herr : delete_item item_id db false =
        .error (.app (.conflict "LAST_ITEM_DELETION_FORBIDDEN")) := by
      simp [delete_item, transaction_scope, rollback_translate, hfind, hcount,
        bind, Except.bind, pure, Except.pure]
    exact ⟨herr, by rw [herr]; rfl⟩
  · intro hcount
    have hne : ¬ ((all_items db).filter
        (fun it => it.invoice_id == item.invoice_id)).length = 1 := by omega
    refine ⟨?_, find_item_remove db item_id⟩
    simp [delete_item, transaction_scope, hfind, hne, bind, Except.bind,
      pure, Except.pure]
  · refine ⟨?_, find_item_remove db item_id⟩
    simp [delete_item, transaction_scope, hfind, bind, Except.bind,
      pure, Except.pure]


/-- C9 witness: the theorem at the one-item store (delete refused; override
succeeds) and at the two-item store (delete succeeds). -/
theorem delete_item_last_item_protection_witness :
    delete_item 1 sample_single_item_db false =
      .error (.app (.conflict "LAST_ITEM_DELETION_FORBIDDEN")) ∧
    delete_item 2 sample_two_item_db false =
      .ok ((), remove_item sample_two_item_db 2) ∧
    delete_item 1 sample_single_item_db true =
      .ok ((), remove_item sample_single_item_db 1) := by
  have h1 := delete_item_last_item_protection 1 sample_single_item_db
    sample_item rfl
  have h2 := delete_item_last_item_protection 2 sample_two_item_db
    sample_item2 rfl
  exact ⟨(h1.1 rfl).1, (h2.2.1 (by decide)).1, h1.2.2.1⟩


theorem insert_invoice_items_length (invoice_id : ℕ) (items : List ItemCreate) :
    ∀ (n : ℕ) (l : List Item),
      insert_invoice_items invoice_id n items = .ok l → l.length = items.length := by
  induction items with
  | nil =>
    intro n l h
    unfold insert_invoice_items at h
    injection h with h
    subst h
    rfl
  | cons d rest ih =>
    intro n l h
    unfold insert_invoice_items at h
    split_ifs at h
    cases hr : insert_invoice_items invoice_id (n + 1) rest with
    | error e =>
      rw [hr] at h
      simp [bind, Except.bind] at h
    | ok tail =>
      rw [hr] at h
      simp only [bind, Except.bind, pure, Except.pure] at h
      injection h with h
      subst h
      simp [ih (n + 1) tail hr]

theorem insert_invoice_items_fails (invoice_id : ℕ) (items : List ItemCreate)
    (d : ItemCreate) (hd : d ∈ items)
    (hbad : ¬ item_row_fits (create_invoice_item_amount (d.qty : ℚ) (d.rate : ℚ))) :
    ∀ n : ℕ, ∃ e, insert_invoice_items invoice_id n items = .error e := by
  induction items with
  | nil => cases hd
  | cons a rest ih =>
    intro n
    rcases List.mem_cons.mp hd with rfl | hmem
    · exact ⟨_, by unfold insert_invoice_items; rw [if_neg hbad]⟩
    · by_cases ha : item_row_fits (create_invoice_item_amount (a.qty : ℚ) (a.rate : ℚ))
      · obtain ⟨e, he⟩ := ih hmem (n + 1)
        refine ⟨e, ?_⟩
        unfold insert_invoice_items
        rw [if_pos ha, he]
        rfl
      · exact ⟨_, by unfold insert_invoice_items; rw [if_neg ha]⟩



/-- C7: invoice creation is atomic: a committed creation changes nothing
but appending the one invoice (holding all its items, with the invoice
number derived from the generated id) to the invoices table; and when any
item's insertion fails at the storage layer, the whole operation raises
and the pre-transaction store stays visible, with no invoice row and no
item rows from the attempt. -/
theorem create_invoice_atomic :
    (∀ (data : InvoiceCreate) (year : ℕ) (db : Database) (inv : Invoice)
        (db2 : Database),
      create_invoice data year db = .ok (inv, db2) →
      db2.clients = db.clients ∧ db2.payments = db.payments ∧
      db2.invoices = db.invoices ++ [inv] ∧
      inv.invoice_no = some (generate_invoice_number year inv.id) ∧
      inv.items.length = data.items.length) ∧
    (∀ (data : InvoiceCreate) (year : ℕ) (db : Database) (d : ItemCreate),
      d ∈ data.items →
      ¬ item_row_fits (create_invoice_item_amount (d.qty : ℚ) (d.rate : ℚ)) →
      (∃ e, create_invoice data year db = .error e) ∧
      visible_database (create_invoice data year db) db = db) := by
  constructor
  · intro data year db inv db2 h
    rw [create_invoice] at h
    cases hc : validate_client_exists data.client_id db with
    | error e =>
      simp [transaction_scope, hc, bind, Except.bind] at h
    | ok client =>
      cases hi : insert_invoice_items (next_invoice_id db) 1 data.items with
      | error e =>
        simp [transaction_scope, hc, hi, bind, Except.bind] at h
      | ok items =>
        simp only [transaction_scope, hc, hi, bind, Except.bind, pure,
          Except.pure] at h
        injection h with h
        injection h with hinv hdb
        subst hinv
        subst hdb
        refine ⟨rfl, rfl, rfl, rfl, ?_⟩
        exact insert_invoice_items_length (next_invoice_id db) data.items 1
          items hi
  · intro data year db d hd hbad
    obtain ⟨e, he⟩ := insert_invoice_items_fails (next_invoice_id db)
      data.items d hd hbad 1
    have herr : ∃ e2, create_invoice data year db = .error e2 := by
      rw [create_invoice]
      cases hc : validate_client_exists data.client_id db with
      | error e3 =>
        refine ⟨rollback_translate e3, ?_⟩
        simp [transaction_scope, hc, bind, Except.bind]
      | ok client =>
        refine ⟨rollback_translate e, ?_⟩
        simp [transaction_scope, hc, he, bind, Except.bind]
    obtain ⟨e2, he2⟩ := herr
    exact ⟨⟨e2, he2⟩, by rw [he2]; rfl⟩


/-- C7 witness: creating an invoice whose second item overflows the amount
column fails and leaves the store exactly as it was. -/
theorem create_invoice_atomic_witness :
    visible_database (create_invoice sample_bad_invoice_data 2026 sample_client_db)
      sample_client_db = sample_client_db ∧
    (∃ e, create_invoice sample_bad_invoice_data 2026 sample_client_db =
      .error e) := by
  have h := create_invoice_atomic.2 sample_bad_invoice_data 2026 sample_client_db
    sample_bad_item_data (by simp [sample_bad_invoice_data])
    (by norm_num [item_row_fits, create_invoice_item_amount,
      sample_bad_item_data, quantize2HalfEven, roundHalfEven])
  exact ⟨h.2, h.1⟩


/-- C8 (amended): a payment whose reference number already exists on a
payment of the same invoice fails with the Conflict error
DUPLICATE_PAYMENT_REFERENCE; when no payment of that invoice carries the
reference (the same reference on another invoice included) creation
succeeds; and a storage-layer IntegrityError raised by the body is
translated by transaction_scope into a Conflict error with code
CONSTRAINT_VIOLATION. -/
theorem duplicate_payment_reference_correct :
    (∀ (pd : PaymentCreate) (db : Database) (inv : Invoice) (ref : String)
        (p : Payment),
      validate_invoice_exists pd.invoice_id db = .ok inv →
      pd.reference_number = some ref → ¬ ref = "" →
      p ∈ db.payments → p.invoice_id = pd.invoice_id →
      p.reference_number = some ref →
      create_payment pd db =
        .error (.app (.conflict "DUPLICATE_PAYMENT_REFERENCE"))) ∧
    (∀ (pd : PaymentCreate) (db : Database) (inv : Invoice),
      validate_invoice_exists pd.invoice_id db = .ok inv →
      (∀ p ∈ db.payments,
        ¬ (p.invoice_id = pd.invoice_id ∧
          p.reference_number = pd.reference_number)) →
      create_payment pd db = .ok (create_payment_record pd db)) ∧
    (∀ (body : Database → Except Err (Payment × Database)) (db : Database)
        (msg : String),
      body db = .error (.dbe (.integrityError msg)) →
      transaction_scope body db =
        .error (.app (.conflict "CONSTRAINT_VIOLATION"))) := by
  refine ⟨?_, ?_, ?_⟩
  · intro pd db inv ref p hv href hne hmem hpinv hpref
    have hfind : (db.payments.find? (fun q =>
        q.invoice_id == pd.invoice_id && q.reference_number == some ref)).isSome := by
      rw [List.find?_isSome]
      exact ⟨p, hmem, by simp [hpinv, hpref]⟩
    obtain ⟨q, hq⟩ := Option.isSome_iff_exists.mp hfind
    have hval : validate_payment_reference_unique pd.invoice_id
        pd.reference_number db =
          .error (.app (.conflict "DUPLICATE_PAYMENT_REFERENCE")) := by
      rw [href]
      simp [validate_payment_reference_unique, hne, hq]
    simp [create_payment, transaction_scope, rollback_translate, hv, hval,
      bind, Except.bind]
  · intro pd db inv hv hnone
    have hval : validate_payment_reference_unique pd.invoice_id
        pd.reference_number db = .ok () := by
      cases href : pd.reference_number with
      | none => simp [validate_payment_reference_unique]
      | some ref =>
        by_cases hne : ref = ""
        · simp [validate_payment_reference_unique, hne]
        · have hfind : db.payments.find? (fun q =>
              q.invoice_id == pd.invoice_id
                && q.reference_number == some ref) = Option.none := by
            rw [List.find?_eq_none]
            intro q hq
            have := hnone q hq
            rw [href] at this
            simp only [Bool.and_eq_true, beq_iff_eq]
            intro hcon
            exact this ⟨hcon.1, hcon.2⟩
          simp [validate_payment_reference_unique, hne, hfind]
    simp [create_payment, transaction_scope, hv, hval, bind, Except.bind,
      pure, Except.pure]
  · intro body db msg h
    simp [transaction_scope, h, rollback_translate, translate_db_error]

/-- C8 counterexample: the commit-time translation of a uniqueness
IntegrityError is the Conflict CONSTRAINT_VIOLATION, which is not the
same DuplicatePayment error (code DUPLICATE_PAYMENT_REFERENCE) that the
precondition check produces, contrary to the claim. -/
theorem duplicate_commit_translation_counterexample :
    transaction_scope
        (fun _ : Database =>
          (.error (.dbe (.integrityError
              "duplicate key value violates unique constraint")) :
            Except Err (Payment × Database)))
        { clients := [], invoices := [], payments := [] } =
      .error (.app (.conflict "CONSTRAINT_VIOLATION")) ∧
    validate_payment_reference_unique 1 (some "REF-1")
        { clients := [], invoices := [sample_invoice],
          payments := [sample_ref_payment] } =
      .error (.app (.conflict "DUPLICATE_PAYMENT_REFERENCE")) ∧
    AppError.conflict "CONSTRAINT_VIOLATION" ≠
      AppError.conflict "DUPLICATE_PAYMENT_REFERENCE" := by
  refine ⟨rfl, rfl, by decide⟩

/-- C8 witness: against the two-invoice store, reusing REF-1 on invoice 1
is refused and reusing it on invoice 2 succeeds. -/
theorem duplicate_payment_reference_witness :
    create_payment sample_dup_payment_data sample_two_invoice_db =
      .error (.app (.conflict "DUPLICATE_PAYMENT_REFERENCE")) ∧
    create_payment sample_cross_payment_data sample_two_invoice_db =
      .ok (create_payment_record sample_cross_payment_data
        sample_two_invoice_db) := by
  refine ⟨?_, ?_⟩
  · exact duplicate_payment_reference_correct.1 sample_dup_payment_data
      sample_two_invoice_db sample_invoice "REF-1" sample_ref_payment rfl rfl
      (by decide) (by simp [sample_two_invoice_db]) rfl rfl
  · exact duplicate_payment_reference_correct.2.1 sample_cross_payment_data
      sample_two_invoice_db { sample_invoice with id := 2 } rfl (by decide)

end InvoiceApp
